import Mathlib

/-!
# Legion daemon supervisor: embedding of `src/cli.c`

The supervisor's globals (`daemons`, `numDaemons`, `timeout`), the log files it
renames and the system calls it issues are gathered in one explicit `World`
value that every handler takes and returns.

Conventions of the embedding.

* `daemons[0 .. numDaemons-1]` is a `List DAEMON`; `numDaemons` is its length.
  A `DAEMON*` obtained from `findDaemon` is the index of the record together
  with the record read through it; writes through the pointer are `updateAt`.
* `char** args, int nargs` is a `List String` whose length is `nargs`.
* `strcmp(a, b) == 0` is string equality.
* Results of system calls are not computed by the program: they are supplied
  by an environment record (`RegisterEnv`, `StartEnv`, `StopEnv`,
  `LogrotateEnv`) and every call is appended to `World.trace`, as are the
  `sf_*` notifications.
* The constants of the header `legion.h` (`LOGFILE_DIR`, `DAEMONS_DIR`,
  `LOG_VERSIONS`, `CHILD_TIMEOUT`, `SYNC_FD`) are not part of the sources and
  are taken as a parameter `Config`.
* A path is the string that `snprintf` leaves in its buffer: the formatted
  text cut to the size of the buffer less one byte (`snprintf`, `logFilePath`).
  When the cut would fall inside a multi-byte character the model drops that
  character whole.
* `strdup` is assumed to succeed (the source never tests its result); the two
  `malloc` calls of `handleRegister` may fail.
* With `forkRet > 0` the run is that of the supervisor; what the child does to
  the log directory meanwhile is not part of it.
* The `timeval` fields of `DAEMON` are never read or written and are omitted.
-/

namespace Legion

/-! ## Constants -/

def DAEMON_STATE_INACTIVE : Int := 0
def DAEMON_STATE_STARTING : Int := 1
def DAEMON_STATE_ACTIVE : Int := 2
def DAEMON_STATE_STOPPING : Int := 3
def DAEMON_STATE_EXITED : Int := 4
def DAEMON_STATE_CRASHED : Int := 5

def MAX_DAEMONS : Nat := 100

/-- Signal numbers of `<signal.h>` (Linux). -/
def SIGKILL : Int := 9

def SIGTERM : Int := 15

/-- Constants of `legion.h`, which is not among the sources. -/
structure Config where
  LOGFILE_DIR : String
  DAEMONS_DIR : String
  LOG_VERSIONS : Nat
  CHILD_TIMEOUT : Nat
  SYNC_FD : Int
deriving DecidableEq

/-! ## Data model -/

/-- The record `struct daemon`; `exit_status` is the storage shared by the
union members `exit_status` and `crash_signal`. -/
structure DAEMON where
  name : String
  command : String
  args : List String
  pid : Int
  state : Int
  exited : Int
  exit_status : Int
deriving DecidableEq

/-- File descriptors handled by `handleStart`. -/
inductive Fd where
  | pipeRead
  | pipeWrite
  | logFd
deriving DecidableEq

/-- Calls that leave the supervisor: notifications, output and system calls. -/
inductive Ev where
  | sf_error (msg : String)
  | sf_register (name command : String)
  | sf_unregister (name : String)
  | sf_start (name : String)
  | sf_active (name : String) (pid : Int)
  | sf_stop (name : String) (pid : Int)
  | sf_term (name : String) (pid : Int) (status : Int)
  | sf_reset (name : String)
  | sf_logrotate (name : String)
  | sf_status (name : String)
  | fprintf (text : String)
  | perror (msg : String)
  | mkdir (dir : String)
  | pipe
  | fork
  | close (fd : Fd)
  | dup2 (fd : Fd) (target : Int)
  | setpgid
  | openLog (path : String)
  | execvpe (path : String) (argv : List String)
  | alarm (seconds : Nat)
  | read
  | kill (pid : Int) (sig : Int)
  | waitpid (pid : Int)
  | unlink (path : String)
  | rename (oldPath newPath : String)
deriving DecidableEq

/-- Global state of the supervisor process and of the log directory. -/
structure World where
  daemons : List DAEMON
  timeout : Int
  files : String → Option String
  trace : List Ev

/-- Reasons for which a call yields no state to continue from. -/
inductive Stuck where
  | outOfBounds
  | spins
  | imageReplaced
deriving DecidableEq

/-! ## Small steps shared by the handlers -/

def emit (e : Ev) (w : World) : World :=
  { w with trace := w.trace ++ [e] }

def sf_error (msg : String) (w : World) : World :=
  emit (Ev.sf_error msg) w

/-- Write through a `DAEMON*`: apply `f` to the record at index `i`. -/
def updateAt (f : DAEMON → DAEMON) : Nat → List DAEMON → List DAEMON
  | _, [] => []
  | 0, d :: ds => f d :: ds
  | i + 1, d :: ds => d :: updateAt f i ds

def setState (i : Nat) (st : Int) (w : World) : World :=
  { w with daemons := updateAt (fun d => { d with state := st }) i w.daemons }

def setPid (i : Nat) (p : Int) (w : World) : World :=
  { w with daemons := updateAt (fun d => { d with pid := p }) i w.daemons }

def setExitStatus (i : Nat) (v : Int) (w : World) : World :=
  { w with daemons := updateAt (fun d => { d with exit_status := v }) i w.daemons }

/-- The loop `for (i = 0; i < numDaemons; i++) if (strcmp(..) == 0) ..`
started at index `i`. -/
def findDaemonFrom (name : String) : Nat → List DAEMON → Option (Nat × DAEMON)
  | _, [] => none
  | i, d :: ds => if d.name = name then some (i, d) else findDaemonFrom name (i + 1) ds

def findDaemon (daemons : List DAEMON) (name : String) : Option (Nat × DAEMON) :=
  findDaemonFrom name 0 daemons

def handle_alarm (w : World) : World :=
  { w with timeout := 1 }

def stateToString (state : Int) : String :=
  if state = DAEMON_STATE_INACTIVE then "inactive"
  else if state = DAEMON_STATE_STARTING then "starting"
  else if state = DAEMON_STATE_ACTIVE then "active"
  else if state = DAEMON_STATE_STOPPING then "stopping"
  else if state = DAEMON_STATE_EXITED then "exited"
  else if state = DAEMON_STATE_CRASHED then "crashed"
  else "unknown"

/-- The line printed by `fprintf(out, "%s\t%d\t%s\n", ..)`. -/
def statusLine (d : DAEMON) : String :=
  d.name ++ "\t" ++ toString d.pid ++ "\t" ++ stateToString d.state ++ "\n"

/-! ## Registration -/

def addDaemonToList (daemon : DAEMON) (w : World) : World :=
  if w.daemons.length < MAX_DAEMONS then
    { w with daemons := w.daemons ++ [daemon] }
  else w

/-- Outcomes of the allocations of `handleRegister`; `junk` is the content of
the freshly allocated bytes of the field `exit_status`, which is not
initialised. -/
structure RegisterEnv where
  daemonAlloc : Bool
  argsAlloc : Bool
  junk : Int
deriving DecidableEq

def handleRegister (env : RegisterEnv) (args : List String) (w : World) : World :=
  match args with
  | _ :: name :: command :: rest =>
    if w.daemons.length ≥ MAX_DAEMONS then
      sf_error "Error. Maximum number of daemons reached. \n" w
    else if env.daemonAlloc = false then
      sf_error "Memory allocation failed for new daemon. \n" w
    else if env.argsAlloc = false then
      sf_error "Memory allocation failed for daemon arguments. \n" w
    else
      let newDaemon : DAEMON :=
        { name := name, command := command, args := command :: rest,
          pid := 0, state := DAEMON_STATE_INACTIVE, exited := 0,
          exit_status := env.junk }
      emit (Ev.sf_register newDaemon.name newDaemon.command) (addDaemonToList newDaemon w)
  | _ => sf_error "Error. Not enough arguments to register a daemon. \n" w

def handleUnregister (args : List String) (w : World) : World :=
  match args with
  | [_, daemonName] =>
    match findDaemon w.daemons daemonName with
    | none => sf_error "Error. Daemon not found. \n" w
    | some (foundIndex, daemon) =>
      if daemon.state ≠ DAEMON_STATE_INACTIVE then
        sf_error "Error. Daemon must be inactive to unregister. \n" w
      else
        let w1 := emit (Ev.sf_unregister daemon.name) w
        { w1 with daemons := w1.daemons.eraseIdx foundIndex }
  | _ => sf_error "Error. Incorrect number of arguments for unregister command. \n" w

/-! ## Status -/

def handleStatus (args : List String) (w : World) : World :=
  match args with
  | _ :: daemonName :: _ =>
    match findDaemon w.daemons daemonName with
    | some (_, daemon) => emit (Ev.fprintf (statusLine daemon)) w
    | none => sf_error "No daemon registered under that name! \n" w
  | _ => sf_error "Invalid number of arguments for status command. \n" w

def statusAllLoop : List DAEMON → World → World
  | [], w => w
  | d :: ds, w => statusAllLoop ds (emit (Ev.sf_status d.name) (emit (Ev.fprintf (statusLine d)) w))

def handleStatusAll (w : World) : World :=
  if w.daemons.length = 0 then emit (Ev.fprintf "No daemons registered.\n") w
  else statusAllLoop w.daemons w

/-! ## Launch -/

/-- One completed call of `read` on the readiness pipe: its return value, and
whether `SIGALRM` was handled before the loop condition is tested again. -/
structure ReadStep where
  size : Int
  alarm : Bool
deriving DecidableEq

/-- What the operating system answers during `handleStart`. With `forkRet = 0`
the run described is that of the child process, on its copy of the globals;
the fields `setpgidRet`, `openRet`, `dup2Ret` and `execFails` are consulted
only there, and `reads` only in the parent. -/
structure StartEnv where
  pipeRet : Int
  forkRet : Int
  setpgidRet : Int
  openRet : Int
  dup2Ret : Int
  execFails : Bool
  reads : List ReadStep
deriving DecidableEq

/-- A decimal digit as printed by `%d`. -/
def formatDigit : Nat → Char
  | 0 => '0'
  | 1 => '1'
  | 2 => '2'
  | 3 => '3'
  | 4 => '4'
  | 5 => '5'
  | 6 => '6'
  | 7 => '7'
  | 8 => '8'
  | _ => '9'

/-- Decimal digits of `n`, most significant first; `fuel` bounds their number. -/
def formatNatAux : Nat → Nat → List Char
  | 0, _ => []
  | fuel + 1, n =>
    if n < 10 then [formatDigit n]
    else formatNatAux fuel (n / 10) ++ [formatDigit (n % 10)]

def formatNat (n : Nat) : List Char :=
  formatNatAux (n + 1) n

/-- The conversion `%d` of `printf`. -/
def formatInt : Int → List Char
  | Int.ofNat n => formatNat n
  | Int.negSucc n => '-' :: formatNat (n + 1)

/-- The leading characters of a text that fit in `room` bytes. -/
def takeBytes : Nat → List Char → List Char
  | _, [] => []
  | room, c :: cs =>
    if c.utf8Size ≤ room then c :: takeBytes (room - c.utf8Size) cs else []

/-- The string that `snprintf(buf, size, ..)` leaves in `buf` for the formatted
text `text`: at most `size - 1` bytes of it. -/
def snprintf (size : Nat) (text : List Char) : String :=
  String.mk (takeBytes (size - 1) text)

/-- The text of the format `"%s/%s.log.%d"`. -/
def formatLogPath (dir name : String) (version : Int) : List Char :=
  dir.data ++ '/' :: (name.data ++ (".log.".data ++ formatInt version))

/-- The content of `logFilePath`, `oldPath` or `newPath`, all `char[256]`, after
`snprintf(.., "%s/%s.log.%d", LOGFILE_DIR, daemonName, version)`. -/
def logFilePath (cfg : Config) (daemonName : String) (version : Int) : String :=
  snprintf 256 (formatLogPath cfg.LOGFILE_DIR daemonName version)

/-- The content of `fullPath`, a `char[1024]`, after
`snprintf(.., "%s/%s", DAEMONS_DIR, daemon->command)`. -/
def fullPath (cfg : Config) (command : String) : String :=
  snprintf 1024 (cfg.DAEMONS_DIR.data ++ '/' :: command.data)

/-- The loop `while (timeout == 0) { size = read(..); if (size > 0) { alarm(0); break; } }`.
The script lists the calls of `read` that complete; when it is used up while
the flag is still 0 the loop has no way to end. -/
def readLoop : List ReadStep → Int → World → Except Stuck (Int × World)
  | [], size, w =>
    if w.timeout = 0 then Except.error Stuck.spins else Except.ok (size, w)
  | st :: rest, size, w =>
    if w.timeout = 0 then
      let w1 := emit Ev.read w
      let w2 := if st.alarm then handle_alarm w1 else w1
      if st.size > 0 then Except.ok (st.size, emit (Ev.alarm 0) w2)
      else readLoop rest st.size w2
    else Except.ok (size, w)

/-- The branch `pid == 0` of `handleStart` (lines 406 to 447). -/
def startChild (cfg : Config) (env : StartEnv) (i : Nat) (daemonName : String)
    (daemon : DAEMON) (w : World) : Except Stuck World :=
  let w := setPid i 0 w
  let w := emit (Ev.close Fd.pipeRead) w
  let w := emit (Ev.dup2 Fd.pipeWrite cfg.SYNC_FD) w
  let w := emit Ev.setpgid w
  if env.setpgidRet ≠ 0 then
    Except.ok (emit (Ev.close Fd.pipeWrite) (sf_error "setpgid failed. \n" w))
  else
    let path := logFilePath cfg daemonName 0
    let w := emit (Ev.openLog path) w
    if env.openRet < 0 then
      Except.ok (emit (Ev.close Fd.pipeWrite) (sf_error "Failed to open log file. \n" w))
    else
      let w := { w with files := fun q => if q = path then some "" else w.files q }
      let w := emit (Ev.dup2 Fd.logFd 1) w
      if env.dup2Ret < 0 then
        Except.ok (emit (Ev.close Fd.pipeWrite)
          (emit (Ev.close Fd.logFd) (sf_error "dup2 failed. \n" w)))
      else
        let w := emit (Ev.close Fd.logFd) w
        let w := emit (Ev.execvpe (fullPath cfg daemon.command) daemon.args) w
        if env.execFails then
          Except.ok (emit (Ev.close Fd.pipeWrite)
            (setState i DAEMON_STATE_INACTIVE (sf_error "execvpe failed. \n" w)))
        else Except.error Stuck.imageReplaced

/-- The branch `pid > 0` of `handleStart` (lines 448 to 476). -/
def startParent (cfg : Config) (env : StartEnv) (i : Nat) (daemon : DAEMON)
    (pid : Int) (w : World) : Except Stuck World :=
  let w := setPid i pid w
  let w := emit (Ev.close Fd.pipeWrite) w
  let w := emit (Ev.alarm cfg.CHILD_TIMEOUT) w
  match readLoop env.reads 0 w with
  | Except.error e => Except.error e
  | Except.ok (size, w) =>
    let w :=
      if size < 1 then
        let w :=
          if w.timeout ≠ 0 then sf_error "Daemon startup timed out.\n" w
          else sf_error "Failed to synchronize with daemon.\n" w
        let w := emit (Ev.kill pid SIGKILL) w
        let w := emit (Ev.waitpid pid) w
        let w := setState i DAEMON_STATE_INACTIVE w
        emit (Ev.close Fd.pipeRead) w
      else w
    let w := setState i DAEMON_STATE_ACTIVE w
    let w := emit (Ev.sf_active daemon.name pid) w
    Except.ok (emit (Ev.close Fd.pipeRead) w)

def handleStart (cfg : Config) (env : StartEnv) (args : List String) (w : World) :
    Except Stuck World :=
  match args with
  | _ :: daemonName :: _ =>
    match findDaemon w.daemons daemonName with
    | none => Except.ok (sf_error "Could not find daemon or daemon state is not inactive. \n" w)
    | some (i, daemon) =>
      if daemon.state ≠ DAEMON_STATE_INACTIVE then
        Except.ok (sf_error "Could not find daemon or daemon state is not inactive. \n" w)
      else
        let w := emit (Ev.mkdir cfg.LOGFILE_DIR) w
        let w := emit (Ev.sf_start daemon.name) w
        let w := setState i DAEMON_STATE_STARTING w
        let w := emit Ev.pipe w
        if env.pipeRet < 0 then
          Except.ok (setState i DAEMON_STATE_INACTIVE (sf_error "Error executing Start. \n" w))
        else
          let w := emit Ev.fork w
          if env.forkRet < 0 then
            let w := emit (Ev.perror "Fork failed. \n") w
            let w := setState i DAEMON_STATE_INACTIVE w
            Except.ok (emit (Ev.close Fd.pipeWrite) (emit (Ev.close Fd.pipeRead) w))
          else if env.forkRet = 0 then startChild cfg env i daemonName daemon w
          else startParent cfg env i daemon env.forkRet w
  | _ => Except.ok (sf_error "Unable to start with unsufficient arguments. \n" w)

/-! ## Termination -/

/-- What the operating system answers during `handleStop`: the return value of
`waitpid`, the status it stores when it succeeds, whether `SIGALRM` was handled
before `waitpid` returned, and whether it is handled later, while the loop
`while (timeout == 0)` runs. -/
structure StopEnv where
  waitRet : Int
  wstatus : Int
  alarmInWait : Bool
  alarmLater : Bool
deriving DecidableEq

/-- Lines 515 to 518 of `handleStop`. -/
def stopTimedOut (i : Nat) (daemon : DAEMON) (w : World) : World :=
  let w := emit (Ev.alarm 0) w
  let w := emit (Ev.kill daemon.pid SIGKILL) w
  let w := setPid i 0 w
  sf_error "Timed out" w

def handleStop (cfg : Config) (env : StopEnv) (args : List String) (w : World) :
    Except Stuck World :=
  match args with
  | _ :: daemonName :: _ =>
    match findDaemon w.daemons daemonName with
    | none => Except.ok (sf_error "Could not find daemon! \n" w)
    | some (i, daemon) =>
      if daemon.state = DAEMON_STATE_CRASHED ∨ daemon.state = DAEMON_STATE_EXITED then
        Except.ok (emit (Ev.sf_reset daemon.name) (setState i DAEMON_STATE_INACTIVE w))
      else if daemon.state ≠ DAEMON_STATE_ACTIVE then
        Except.ok (sf_error "Error with stop" w)
      else
        let w := setState i DAEMON_STATE_STOPPING w
        let w := emit (Ev.kill daemon.pid SIGTERM) w
        let w := emit (Ev.sf_stop daemon.name daemon.pid) w
        let w := emit (Ev.alarm cfg.CHILD_TIMEOUT) w
        let w := emit (Ev.waitpid daemon.pid) w
        let w := if env.waitRet ≠ -1 then setExitStatus i env.wstatus w else w
        let w := if env.alarmInWait then handle_alarm w else w
        if w.timeout = 0 then
          if env.waitRet ≠ -1 then
            let w := setState i DAEMON_STATE_EXITED w
            let w := emit (Ev.sf_term daemon.name daemon.pid env.wstatus) w
            Except.ok (setPid i 0 w)
          else if env.alarmLater then
            Except.ok (stopTimedOut i daemon (handle_alarm w))
          else Except.error Stuck.spins
        else Except.ok (stopTimedOut i daemon w)
  | _ => Except.error Stuck.outOfBounds

/-! ## Log rotation -/

def unlink (path : String) (w : World) : World :=
  emit (Ev.unlink path)
    { w with files := fun q => if q = path then none else w.files q }

/-- The call `rename(oldPath, newPath)`: it fails and changes nothing when
`oldPath` does not exist, and does nothing when both paths are the same. -/
def rename (oldPath newPath : String) (w : World) : World :=
  emit (Ev.rename oldPath newPath)
    (match w.files oldPath with
     | none => w
     | some c =>
       if oldPath = newPath then w
       else { w with files := fun q =>
                if q = newPath then some c else if q = oldPath then none else w.files q })

/-- The loop `for (i = maxVersion - 1; i >= 0; i--) rename(.. i, .. i + 1)`,
with `n` iterations left, the next one at index `n - 1`. -/
def rotateLoop (cfg : Config) (daemonName : String) : Nat → World → World
  | 0, w => w
  | i + 1, w =>
    rotateLoop cfg daemonName i
      (rename (logFilePath cfg daemonName (i : Nat)) (logFilePath cfg daemonName (i + 1 : Nat)) w)

structure LogrotateEnv where
  stop : StopEnv
  start : StartEnv
deriving DecidableEq

def handleLogrotate (cfg : Config) (env : LogrotateEnv) (args : List String) (w : World) :
    Except Stuck World :=
  match args with
  | _ :: daemonName :: _ =>
    match findDaemon w.daemons daemonName with
    | none => Except.ok (sf_error "No such daemon registered.\n" w)
    | some (i, daemon) =>
      let maxVersion : Int := (cfg.LOG_VERSIONS : Int) - 1
      let w := emit (Ev.mkdir cfg.LOGFILE_DIR) w
      let w := unlink (logFilePath cfg daemonName maxVersion) w
      let w := rotateLoop cfg daemonName maxVersion.toNat w
      if daemon.state = DAEMON_STATE_ACTIVE then
        match handleStop cfg env.stop ["stop", daemon.name] w with
        | Except.error e => Except.error e
        | Except.ok w =>
          let w := setState i DAEMON_STATE_INACTIVE w
          let w := emit (Ev.sf_logrotate daemon.name) w
          handleStart cfg env.start ["start", daemon.name] w
      else Except.ok w
  | _ => Except.ok (sf_error "Not enough arguments to run Log Rotate, \n" w)

/-! ## Sequences of operations -/

/-- A command handled by the supervisor, with the answers of the operating
system during it, or the delivery of `SIGALRM` between two commands. -/
inductive Op where
  | register (env : RegisterEnv) (args : List String)
  | unregister (args : List String)
  | start (env : StartEnv) (args : List String)
  | stop (env : StopEnv) (args : List String)
  | logrotate (env : LogrotateEnv) (args : List String)
  | status (args : List String)
  | statusAll
  | sigalrm

def runOp (cfg : Config) : Op → World → Except Stuck World
  | Op.register env args, w => Except.ok (handleRegister env args w)
  | Op.unregister args, w => Except.ok (handleUnregister args w)
  | Op.start env args, w => handleStart cfg env args w
  | Op.stop env args, w => handleStop cfg env args w
  | Op.logrotate env args, w => handleLogrotate cfg env args w
  | Op.status args, w => Except.ok (handleStatus args w)
  | Op.statusAll, w => Except.ok (handleStatusAll w)
  | Op.sigalrm, w => Except.ok (handle_alarm w)

def runOps (cfg : Config) : List Op → World → Except Stuck World
  | [], w => Except.ok w
  | op :: ops, w =>
    match runOp cfg op w with
    | Except.error e => Except.error e
    | Except.ok w1 => runOps cfg ops w1

/-! ## Concrete inputs used to run the handlers -/

def sampleConfig : Config :=
  { LOGFILE_DIR := "logs", DAEMONS_DIR := "daemons", LOG_VERSIONS := 3,
    CHILD_TIMEOUT := 1, SYNC_FD := 3 }

def noFiles : String → Option String := fun _ => none

/-- A record named `name` running `serve.sh`, in state `st` with process id `p`. -/
def sampleDaemon (name : String) (st p : Int) : DAEMON :=
  { name := name, command := "serve.sh", args := ["serve.sh"], pid := p, state := st,
    exited := 0, exit_status := 0 }

def sampleWorld (ds : List DAEMON) : World :=
  { daemons := ds, timeout := 0, files := noFiles, trace := [] }

/-- Answers of the operating system for a start whose `pipe` and `fork`
succeed, the child receiving process id 42, with the given reads. -/
def startEnvParent (reads : List ReadStep) : StartEnv :=
  { pipeRet := 0, forkRet := 42, setpgidRet := 0, openRet := 3, dup2Ret := 1,
    execFails := false, reads := reads }

/-- The world of `sampleWorld` once `handle_alarm` has run. -/
def flaggedWorld (ds : List DAEMON) : World :=
  { daemons := ds, timeout := 1, files := noFiles, trace := [] }

/-- The world reached from `flaggedWorld` with one INACTIVE record `web` by a
start followed by a stop. -/
def stickyRunResult : World :=
  { daemons := [sampleDaemon "web" DAEMON_STATE_STOPPING 0], timeout := 1,
    files := noFiles,
    trace := [Ev.mkdir "logs", Ev.sf_start "web", Ev.pipe, Ev.fork,
      Ev.close Fd.pipeWrite, Ev.alarm 1, Ev.sf_error "Daemon startup timed out.\n",
      Ev.kill 42 SIGKILL, Ev.waitpid 42, Ev.close Fd.pipeRead,
      Ev.sf_active "web" 42, Ev.close Fd.pipeRead,
      Ev.kill 42 SIGTERM, Ev.sf_stop "web" 42, Ev.alarm 1, Ev.waitpid 42,
      Ev.alarm 0, Ev.kill 42 SIGKILL, Ev.sf_error "Timed out"] }

/-! ## Vocabulary of the properties -/

/-- No record of the registry is in state STARTING or STOPPING. -/
def noTransient (ds : List DAEMON) : Prop :=
  ∀ d ∈ ds, d.state ≠ DAEMON_STATE_STARTING ∧ d.state ≠ DAEMON_STATE_STOPPING

instance (ds : List DAEMON) : Decidable (noTransient ds) := by
  unfold noTransient
  infer_instance

/-- How a child that has been reaped ended: with an exit code, or killed by a
signal. -/
inductive Termination where
  | normal (code : Nat)
  | signal (sig : Nat)
deriving DecidableEq

/-- The status word that `waitpid` stores for a child (Linux encoding): the
exit code in bits 8 to 15, or the terminating signal in bits 0 to 6 (no core
dump). -/
def waitStatus : Termination → Int
  | Termination.normal code => ((code % 256 : Nat) : Int) * 256
  | Termination.signal sig => ((sig % 128 : Nat) : Int)

/-- Answers of the operating system for a stop during which `waitpid` reaps
the child 42, which ended as `t`, before `SIGALRM` is delivered. -/
def stopEnvReaped (t : Termination) : StopEnv :=
  { waitRet := 42, wstatus := waitStatus t, alarmInWait := false, alarmLater := false }

/-- Answers of the operating system for a stop during which `waitpid` is
interrupted by `SIGALRM` and returns -1. -/
def stopEnvTimedOut : StopEnv :=
  { waitRet := -1, wstatus := 0, alarmInWait := true, alarmLater := false }

@[simp] theorem emit_daemons (e : Ev) (w : World) : (emit e w).daemons = w.daemons := rfl

@[simp] theorem emit_timeout (e : Ev) (w : World) : (emit e w).timeout = w.timeout := rfl

@[simp] theorem emit_files (e : Ev) (w : World) : (emit e w).files = w.files := rfl

@[simp] theorem emit_trace (e : Ev) (w : World) : (emit e w).trace = w.trace ++ [e] := rfl

@[simp] theorem sf_error_daemons (m : String) (w : World) :
    (sf_error m w).daemons = w.daemons := rfl

@[simp] theorem sf_error_timeout (m : String) (w : World) :
    (sf_error m w).timeout = w.timeout := rfl

@[simp] theorem sf_error_files (m : String) (w : World) : (sf_error m w).files = w.files := rfl

@[simp] theorem sf_error_trace (m : String) (w : World) :
    (sf_error m w).trace = w.trace ++ [Ev.sf_error m] := rfl

@[simp] theorem setState_daemons (i : Nat) (st : Int) (w : World) :
    (setState i st w).daemons = updateAt (fun d => { d with state := st }) i w.daemons := rfl

@[simp] theorem setState_timeout (i : Nat) (st : Int) (w : World) :
    (setState i st w).timeout = w.timeout := rfl

@[simp] theorem setState_files (i : Nat) (st : Int) (w : World) :
    (setState i st w).files = w.files := rfl

@[simp] theorem setState_trace (i : Nat) (st : Int) (w : World) :
    (setState i st w).trace = w.trace := rfl

@[simp] theorem setPid_daemons (i : Nat) (p : Int) (w : World) :
    (setPid i p w).daemons = updateAt (fun d => { d with pid := p }) i w.daemons := rfl

@[simp] theorem setPid_timeout (i : Nat) (p : Int) (w : World) :
    (setPid i p w).timeout = w.timeout := rfl

@[simp] theorem setPid_files (i : Nat) (p : Int) (w : World) :
    (setPid i p w).files = w.files := rfl

@[simp] theorem setPid_trace (i : Nat) (p : Int) (w : World) :
    (setPid i p w).trace = w.trace := rfl

@[simp] theorem setExitStatus_daemons (i : Nat) (v : Int) (w : World) :
    (setExitStatus i v w).daemons
      = updateAt (fun d => { d with exit_status := v }) i w.daemons := rfl

@[simp] theorem setExitStatus_timeout (i : Nat) (v : Int) (w : World) :
    (setExitStatus i v w).timeout = w.timeout := rfl

@[simp] theorem setExitStatus_files (i : Nat) (v : Int) (w : World) :
    (setExitStatus i v w).files = w.files := rfl

@[simp] theorem setExitStatus_trace (i : Nat) (v : Int) (w : World) :
    (setExitStatus i v w).trace = w.trace := rfl

@[simp] theorem handle_alarm_daemons (w : World) : (handle_alarm w).daemons = w.daemons := rfl

@[simp] theorem handle_alarm_timeout (w : World) : (handle_alarm w).timeout = 1 := rfl

@[simp] theorem handle_alarm_files (w : World) : (handle_alarm w).files = w.files := rfl

@[simp] theorem handle_alarm_trace (w : World) : (handle_alarm w).trace = w.trace := rfl

/-! ## The registry as a list -/

theorem updateAt_split (f : DAEMON → DAEMON) (d : DAEMON) (l2 : List DAEMON) :
    ∀ l1 : List DAEMON, updateAt f l1.length (l1 ++ d :: l2) = l1 ++ f d :: l2
  | [] => rfl
  | e :: l1 => by simp [updateAt, updateAt_split f d l2 l1]

theorem set_split (d d1 : DAEMON) (l2 : List DAEMON) :
    ∀ l1 : List DAEMON, (l1 ++ d :: l2).set l1.length d1 = l1 ++ d1 :: l2
  | [] => rfl
  | e :: l1 => by simp [set_split d d1 l2 l1]

theorem eraseIdx_split (d : DAEMON) (l2 : List DAEMON) :
    ∀ l1 : List DAEMON, (l1 ++ d :: l2).eraseIdx l1.length = l1 ++ l2
  | [] => rfl
  | e :: l1 => by simp [eraseIdx_split d l2 l1]

/-- A successful search splits the registry at the first record of that name. -/
theorem findDaemonFrom_split (name : String) :
    ∀ (ds : List DAEMON) (k i : Nat) (d : DAEMON),
      findDaemonFrom name k ds = some (i, d) →
      ∃ l1 l2, ds = l1 ++ d :: l2 ∧ i = k + l1.length ∧ d.name = name ∧
        ∀ e ∈ l1, e.name ≠ name
  | [], _, _, _, h => by simp [findDaemonFrom] at h
  | e :: ds, k, i, d, h => by
    by_cases he : e.name = name
    · simp [findDaemonFrom, he] at h
      obtain ⟨hk, hd⟩ := h
      subst hk hd
      exact ⟨[], ds, rfl, by simp, he, by simp⟩
    · simp [findDaemonFrom, he] at h
      obtain ⟨l1, l2, hds, hi, hn, hall⟩ := findDaemonFrom_split name ds (k + 1) i d h
      refine ⟨e :: l1, l2, by simp [hds], by simp [hi]; omega, hn, ?_⟩
      intro x hx
      rcases List.mem_cons.mp hx with rfl | hx
      · exact he
      · exact hall x hx

theorem findDaemon_split {ds : List DAEMON} {name : String} {i : Nat} {d : DAEMON}
    (h : findDaemon ds name = some (i, d)) :
    ∃ l1 l2, ds = l1 ++ d :: l2 ∧ i = l1.length ∧ d.name = name ∧ ∀ e ∈ l1, e.name ≠ name := by
  obtain ⟨l1, l2, h1, h2, h3, h4⟩ := findDaemonFrom_split name ds 0 i d h
  exact ⟨l1, l2, h1, by simpa using h2, h3, h4⟩

/-- The search fails exactly when no record carries the name. -/
theorem findDaemonFrom_none (name : String) :
    ∀ (ds : List DAEMON) (k : Nat),
      (∀ e ∈ ds, e.name ≠ name) → findDaemonFrom name k ds = none
  | [], _, _ => rfl
  | e :: ds, k, h => by
    have he : e.name ≠ name := h e (List.mem_cons_self _ _)
    simp only [findDaemonFrom, he, if_false]
    exact findDaemonFrom_none name ds (k + 1) (fun x hx => h x (List.mem_cons_of_mem _ hx))

/-- The search skips leading records that do not carry the name. -/
theorem findDaemonFrom_append (name : String) (d : DAEMON) (l2 : List DAEMON)
    (hd : d.name = name) :
    ∀ (l1 : List DAEMON) (k : Nat), (∀ e ∈ l1, e.name ≠ name) →
      findDaemonFrom name k (l1 ++ d :: l2) = some (k + l1.length, d)
  | [], k, _ => by simp [findDaemonFrom, hd]
  | e :: l1, k, h => by
    have he : e.name ≠ name := h e (List.mem_cons_self _ _)
    have ih := findDaemonFrom_append name d l2 hd l1 (k + 1)
      (fun x hx => h x (List.mem_cons_of_mem _ hx))
    have hk : k + 1 + l1.length = k + (l1.length + 1) := by omega
    rw [hk] at ih
    simpa [findDaemonFrom, he] using ih

/-! ## Refusals: `unregister` and `start` outside INACTIVE -/

/-- C4: when the first record named `n` is in a state other than INACTIVE,
`handleUnregister` only reports an error: the registry is the same list of
records (same order, same count), the search for `n` still yields the same
record, and nothing else of the state changes. -/
theorem unregister_refused_outside_inactive (w : World) (a n : String) (rest : List String)
    (i : Nat) (d : DAEMON)
    (hfind : findDaemon w.daemons n = some (i, d))
    (hstate : d.state ≠ DAEMON_STATE_INACTIVE) :
    (handleUnregister (a :: n :: rest) w).daemons = w.daemons ∧
    (handleUnregister (a :: n :: rest) w).daemons.length = w.daemons.length ∧
    findDaemon (handleUnregister (a :: n :: rest) w).daemons n = some (i, d) ∧
    (handleUnregister (a :: n :: rest) w).timeout = w.timeout ∧
    (handleUnregister (a :: n :: rest) w).files = w.files ∧
    ∃ msg, (handleUnregister (a :: n :: rest) w).trace = w.trace ++ [Ev.sf_error msg] := by
  cases rest with
  | nil => simp [handleUnregister, hfind, hstate]
  | cons b rest => simp [handleUnregister, hfind]

/-- Instance of C4: `unregister web` while `web` is ACTIVE. -/
theorem unregister_refused_outside_inactive_witness :
    findDaemon (sampleWorld [sampleDaemon "web" DAEMON_STATE_ACTIVE 42]).daemons "web"
      = some (0, sampleDaemon "web" DAEMON_STATE_ACTIVE 42) ∧
    (sampleDaemon "web" DAEMON_STATE_ACTIVE 42).state ≠ DAEMON_STATE_INACTIVE ∧
    (handleUnregister ["unregister", "web"]
        (sampleWorld [sampleDaemon "web" DAEMON_STATE_ACTIVE 42])).daemons
      = (sampleWorld [sampleDaemon "web" DAEMON_STATE_ACTIVE 42]).daemons ∧
    (handleUnregister ["unregister", "web"]
        (sampleWorld [sampleDaemon "web" DAEMON_STATE_ACTIVE 42])).daemons.length
      = (sampleWorld [sampleDaemon "web" DAEMON_STATE_ACTIVE 42]).daemons.length ∧
    findDaemon (handleUnregister ["unregister", "web"]
        (sampleWorld [sampleDaemon "web" DAEMON_STATE_ACTIVE 42])).daemons "web"
      = some (0, sampleDaemon "web" DAEMON_STATE_ACTIVE 42) ∧
    (handleUnregister ["unregister", "web"]
        (sampleWorld [sampleDaemon "web" DAEMON_STATE_ACTIVE 42])).timeout
      = (sampleWorld [sampleDaemon "web" DAEMON_STATE_ACTIVE 42]).timeout ∧
    (handleUnregister ["unregister", "web"]
        (sampleWorld [sampleDaemon "web" DAEMON_STATE_ACTIVE 42])).files
      = (sampleWorld [sampleDaemon "web" DAEMON_STATE_ACTIVE 42]).files ∧
    ∃ msg, (handleUnregister ["unregister", "web"]
        (sampleWorld [sampleDaemon "web" DAEMON_STATE_ACTIVE 42])).trace
      = (sampleWorld [sampleDaemon "web" DAEMON_STATE_ACTIVE 42]).trace ++ [Ev.sf_error msg] :=
  ⟨by decide, by decide,
    unregister_refused_outside_inactive
      (sampleWorld [sampleDaemon "web" DAEMON_STATE_ACTIVE 42]) "unregister" "web" [] 0
      (sampleDaemon "web" DAEMON_STATE_ACTIVE 42) (by decide) (by decide)⟩

/-- C6: when the first record named `n` is in a state other than INACTIVE,
`handleStart` returns after reporting one error: the trace gains that single
report (no `pipe`, no `fork`), and the registry, hence the state and process
id of every record, is unchanged; no record passes to STARTING. -/
theorem start_refused_outside_inactive (cfg : Config) (env : StartEnv) (w : World)
    (a n : String) (rest : List String) (i : Nat) (d : DAEMON)
    (hfind : findDaemon w.daemons n = some (i, d))
    (hstate : d.state ≠ DAEMON_STATE_INACTIVE) :
    ∃ w1, handleStart cfg env (a :: n :: rest) w = Except.ok w1 ∧
      w1.daemons = w.daemons ∧
      w1.trace = w.trace
        ++ [Ev.sf_error "Could not find daemon or daemon state is not inactive. \n"] ∧
      Ev.pipe ∉ w1.trace.drop w.trace.length ∧
      Ev.fork ∉ w1.trace.drop w.trace.length ∧
      w1.timeout = w.timeout ∧ w1.files = w.files := by
  refine ⟨sf_error "Could not find daemon or daemon state is not inactive. \n" w, ?_, ?_⟩
  · simp [handleStart, hfind, hstate]
  · simp

/-- Instance of C6: `start web` while `web` is EXITED. -/
theorem start_refused_outside_inactive_witness :
    findDaemon (sampleWorld [sampleDaemon "web" DAEMON_STATE_EXITED 0]).daemons "web"
      = some (0, sampleDaemon "web" DAEMON_STATE_EXITED 0) ∧
    (sampleDaemon "web" DAEMON_STATE_EXITED 0).state ≠ DAEMON_STATE_INACTIVE ∧
    ∃ w1, handleStart sampleConfig (startEnvParent []) ["start", "web"]
        (sampleWorld [sampleDaemon "web" DAEMON_STATE_EXITED 0]) = Except.ok w1 ∧
      w1.daemons = (sampleWorld [sampleDaemon "web" DAEMON_STATE_EXITED 0]).daemons ∧
      w1.trace = (sampleWorld [sampleDaemon "web" DAEMON_STATE_EXITED 0]).trace
        ++ [Ev.sf_error "Could not find daemon or daemon state is not inactive. \n"] ∧
      Ev.pipe ∉ w1.trace.drop
        (sampleWorld [sampleDaemon "web" DAEMON_STATE_EXITED 0]).trace.length ∧
      Ev.fork ∉ w1.trace.drop
        (sampleWorld [sampleDaemon "web" DAEMON_STATE_EXITED 0]).trace.length ∧
      w1.timeout = (sampleWorld [sampleDaemon "web" DAEMON_STATE_EXITED 0]).timeout ∧
      w1.files = (sampleWorld [sampleDaemon "web" DAEMON_STATE_EXITED 0]).files :=
  ⟨by decide, by decide,
    start_refused_outside_inactive sampleConfig (startEnvParent [])
      (sampleWorld [sampleDaemon "web" DAEMON_STATE_EXITED 0]) "start" "web" [] 0
      (sampleDaemon "web" DAEMON_STATE_EXITED 0) (by decide) (by decide)⟩

/-! ## Stopping -/

/-- Two writes through the same pointer compose. -/
theorem updateAt_updateAt (f g : DAEMON → DAEMON) :
    ∀ (i : Nat) (ds : List DAEMON),
      updateAt g i (updateAt f i ds) = updateAt (fun d => g (f d)) i ds
  | 0, [] => rfl
  | _ + 1, [] => rfl
  | 0, _ :: _ => rfl
  | i + 1, _ :: ds => by simp [updateAt, updateAt_updateAt f g i ds]

/-- A write through the pointer returned by the search replaces that record. -/
theorem updateAt_found {ds : List DAEMON} {n : String} {i : Nat} {d : DAEMON}
    (h : findDaemon ds n = some (i, d)) (f : DAEMON → DAEMON) :
    updateAt f i ds = ds.set i (f d) := by
  obtain ⟨l1, l2, hds, hi, _, _⟩ := findDaemon_split h
  subst hds hi
  rw [updateAt_split, set_split]

/-- C5 (as amended): when the first record named `n` is EXITED or CRASHED,
whatever its process id, `handleStop` returns after the single notification
`sf_reset` (no `kill`, no other call), and only the state of that record
changes, to INACTIVE: its `exited` tag, its `exit_status` and its process id
keep their values, and every other record is unchanged. -/
theorem stop_resets_terminal_record (cfg : Config) (env : StopEnv) (w : World)
    (a n : String) (rest : List String) (i : Nat) (d : DAEMON)
    (hfind : findDaemon w.daemons n = some (i, d))
    (hstate : d.state = DAEMON_STATE_EXITED ∨ d.state = DAEMON_STATE_CRASHED) :
    ∃ w1, handleStop cfg env (a :: n :: rest) w = Except.ok w1 ∧
      w1.daemons = w.daemons.set i { d with state := DAEMON_STATE_INACTIVE } ∧
      w1.trace = w.trace ++ [Ev.sf_reset d.name] ∧
      w1.timeout = w.timeout ∧ w1.files = w.files := by
  refine ⟨emit (Ev.sf_reset d.name) (setState i DAEMON_STATE_INACTIVE w), ?_, ?_⟩
  · have h : d.state = DAEMON_STATE_CRASHED ∨ d.state = DAEMON_STATE_EXITED := hstate.symm
    simp [handleStop, hfind, h]
  · simp [updateAt_found hfind]

/-- Instance of C5 as amended: `stop web` while `web` is CRASHED with process id 42. -/
theorem stop_resets_terminal_record_witness :
    findDaemon (sampleWorld [sampleDaemon "web" DAEMON_STATE_CRASHED 42]).daemons "web"
      = some (0, sampleDaemon "web" DAEMON_STATE_CRASHED 42) ∧
    ((sampleDaemon "web" DAEMON_STATE_CRASHED 42).state = DAEMON_STATE_EXITED ∨
      (sampleDaemon "web" DAEMON_STATE_CRASHED 42).state = DAEMON_STATE_CRASHED) ∧
    ∃ w1, handleStop sampleConfig stopEnvTimedOut ["stop", "web"]
        (sampleWorld [sampleDaemon "web" DAEMON_STATE_CRASHED 42]) = Except.ok w1 ∧
      w1.daemons = (sampleWorld [sampleDaemon "web" DAEMON_STATE_CRASHED 42]).daemons.set 0
        { sampleDaemon "web" DAEMON_STATE_CRASHED 42 with state := DAEMON_STATE_INACTIVE } ∧
      w1.trace = (sampleWorld [sampleDaemon "web" DAEMON_STATE_CRASHED 42]).trace
        ++ [Ev.sf_reset (sampleDaemon "web" DAEMON_STATE_CRASHED 42).name] ∧
      w1.timeout = (sampleWorld [sampleDaemon "web" DAEMON_STATE_CRASHED 42]).timeout ∧
      w1.files = (sampleWorld [sampleDaemon "web" DAEMON_STATE_CRASHED 42]).files :=
  ⟨by decide, by decide,
    stop_resets_terminal_record sampleConfig stopEnvTimedOut
      (sampleWorld [sampleDaemon "web" DAEMON_STATE_CRASHED 42]) "stop" "web" [] 0
      (sampleDaemon "web" DAEMON_STATE_CRASHED 42) (by decide) (by decide)⟩

/-- C5 fails as stated: a record that is EXITED with `exited = 1` and
`exit_status = 768` is reset to INACTIVE by `handleStop` with both values
still in place. -/
theorem stop_reset_keeps_outcome :
    ∃ w1, handleStop sampleConfig stopEnvTimedOut ["stop", "web"]
        (sampleWorld [{ sampleDaemon "web" DAEMON_STATE_EXITED 0 with
                          exited := 1, exit_status := 768 }]) = Except.ok w1 ∧
      w1.daemons = [{ sampleDaemon "web" DAEMON_STATE_INACTIVE 0 with
                        exited := 1, exit_status := 768 }] ∧
      ¬ (∀ d ∈ w1.daemons, d.exited = 0 ∧ d.exit_status = 0) :=
  ⟨_, rfl, by decide, by decide⟩

/-- C2 (as amended): when the first record named `n` is ACTIVE, the timeout
flag is 0, and `waitpid` returns a value other than -1 before `SIGALRM` is
handled, `handleStop` returns with that record in state EXITED, whether the
child exited or was killed by a signal; `exit_status` holds the status word
stored by `waitpid`, the `exited` tag keeps its value, the process id is 0, and
every other record is unchanged. -/
theorem stop_reaped_ends_exited (cfg : Config) (env : StopEnv) (w : World)
    (a n : String) (rest : List String) (i : Nat) (d : DAEMON)
    (hfind : findDaemon w.daemons n = some (i, d))
    (hstate : d.state = DAEMON_STATE_ACTIVE)
    (hflag : w.timeout = 0)
    (hwait : env.waitRet ≠ -1)
    (halarm : env.alarmInWait = false) :
    ∃ w1, handleStop cfg env (a :: n :: rest) w = Except.ok w1 ∧
      w1.daemons = w.daemons.set i
        { d with state := DAEMON_STATE_EXITED, exit_status := env.wstatus, pid := 0 } ∧
      w1.trace = w.trace ++ [Ev.kill d.pid SIGTERM, Ev.sf_stop d.name d.pid,
        Ev.alarm cfg.CHILD_TIMEOUT, Ev.waitpid d.pid, Ev.sf_term d.name d.pid env.wstatus] ∧
      w1.timeout = 0 ∧ w1.files = w.files := by
  have h1 : ¬ (d.state = DAEMON_STATE_CRASHED ∨ d.state = DAEMON_STATE_EXITED) := by
    rw [hstate]; decide
  refine ⟨setPid i 0 (emit (Ev.sf_term d.name d.pid env.wstatus)
    (setState i DAEMON_STATE_EXITED (setExitStatus i env.wstatus
      (emit (Ev.waitpid d.pid) (emit (Ev.alarm cfg.CHILD_TIMEOUT)
        (emit (Ev.sf_stop d.name d.pid) (emit (Ev.kill d.pid SIGTERM)
          (setState i DAEMON_STATE_STOPPING w)))))))), ?_, ?_, ?_, ?_, ?_⟩
  · simp only [handleStop, hfind, h1, if_false, ne_eq, hwait, not_false_eq_true, if_true,
      halarm, Bool.false_eq_true, setExitStatus_timeout, emit_timeout, setState_timeout, hflag]
    simp [hstate]
  · simp only [setPid_daemons, emit_daemons, setState_daemons, setExitStatus_daemons,
      updateAt_updateAt]
    rw [updateAt_found hfind]
  · simp
  · simp [hflag]
  · simp

/-- Instance of C2 as amended: `stop web`, the child exits with code 3 and is reaped. -/
theorem stop_reaped_ends_exited_witness :
    findDaemon (sampleWorld [sampleDaemon "web" DAEMON_STATE_ACTIVE 42]).daemons "web"
      = some (0, sampleDaemon "web" DAEMON_STATE_ACTIVE 42) ∧
    (sampleDaemon "web" DAEMON_STATE_ACTIVE 42).state = DAEMON_STATE_ACTIVE ∧
    (sampleWorld [sampleDaemon "web" DAEMON_STATE_ACTIVE 42]).timeout = 0 ∧
    (stopEnvReaped (Termination.normal 3)).waitRet ≠ -1 ∧
    (stopEnvReaped (Termination.normal 3)).alarmInWait = false ∧
    ∃ w1, handleStop sampleConfig (stopEnvReaped (Termination.normal 3)) ["stop", "web"]
        (sampleWorld [sampleDaemon "web" DAEMON_STATE_ACTIVE 42]) = Except.ok w1 ∧
      w1.daemons = (sampleWorld [sampleDaemon "web" DAEMON_STATE_ACTIVE 42]).daemons.set 0
        { sampleDaemon "web" DAEMON_STATE_ACTIVE 42 with
            state := DAEMON_STATE_EXITED,
            exit_status := (stopEnvReaped (Termination.normal 3)).wstatus, pid := 0 } ∧
      w1.trace = (sampleWorld [sampleDaemon "web" DAEMON_STATE_ACTIVE 42]).trace ++
        [Ev.kill (sampleDaemon "web" DAEMON_STATE_ACTIVE 42).pid SIGTERM,
         Ev.sf_stop (sampleDaemon "web" DAEMON_STATE_ACTIVE 42).name
           (sampleDaemon "web" DAEMON_STATE_ACTIVE 42).pid,
         Ev.alarm sampleConfig.CHILD_TIMEOUT,
         Ev.waitpid (sampleDaemon "web" DAEMON_STATE_ACTIVE 42).pid,
         Ev.sf_term (sampleDaemon "web" DAEMON_STATE_ACTIVE 42).name
           (sampleDaemon "web" DAEMON_STATE_ACTIVE 42).pid
           (stopEnvReaped (Termination.normal 3)).wstatus] ∧
      w1.timeout = 0 ∧
      w1.files = (sampleWorld [sampleDaemon "web" DAEMON_STATE_ACTIVE 42]).files :=
  ⟨by decide, by decide, by decide, by decide, by decide,
    stop_reaped_ends_exited sampleConfig (stopEnvReaped (Termination.normal 3))
      (sampleWorld [sampleDaemon "web" DAEMON_STATE_ACTIVE 42]) "stop" "web" [] 0
      (sampleDaemon "web" DAEMON_STATE_ACTIVE 42) (by decide) (by decide) (by decide)
      (by decide) (by decide)⟩

/-- C2 fails as stated: a child killed by signal 9 and reaped in time leaves
its record in state EXITED, not CRASHED; and a child that exits with code 3
leaves `exit_status = 768` (the whole status word) with the `exited` tag still
at its value from before the call. -/
theorem stop_signalled_child_recorded_exited :
    (∃ w1, handleStop sampleConfig (stopEnvReaped (Termination.signal 9)) ["stop", "web"]
        (sampleWorld [sampleDaemon "web" DAEMON_STATE_ACTIVE 42]) = Except.ok w1 ∧
      w1.daemons = [{ sampleDaemon "web" DAEMON_STATE_EXITED 0 with exit_status := 9 }] ∧
      ¬ (∀ d ∈ w1.daemons, d.state = DAEMON_STATE_CRASHED)) ∧
    (∃ w1, handleStop sampleConfig (stopEnvReaped (Termination.normal 3)) ["stop", "web"]
        (sampleWorld [sampleDaemon "web" DAEMON_STATE_ACTIVE 42]) = Except.ok w1 ∧
      w1.daemons = [{ sampleDaemon "web" DAEMON_STATE_EXITED 0 with exit_status := 768 }] ∧
      ¬ (∀ d ∈ w1.daemons, d.exit_status = 3)) :=
  ⟨⟨_, rfl, by decide, by decide⟩, ⟨_, rfl, by decide, by decide⟩⟩

/-! ## Defects: records left in the wrong state -/

/-- C1 (the code departs from it): with `pipe` and `fork` successful and no
readiness byte read, `handleStart` kills and reaps the child 42 and then
returns with the record in state ACTIVE and process id 42. First run: `read`
is interrupted by `SIGALRM`. Second run: the pipe is closed, `read` returns 0
until `SIGALRM` arrives. -/
theorem start_without_readiness_ends_active :
    (∃ w1, handleStart sampleConfig (startEnvParent [⟨-1, true⟩]) ["start", "web"]
        (sampleWorld [sampleDaemon "web" DAEMON_STATE_INACTIVE 0]) = Except.ok w1 ∧
      w1.daemons = [sampleDaemon "web" DAEMON_STATE_ACTIVE 42] ∧
      w1.trace = [Ev.mkdir "logs", Ev.sf_start "web", Ev.pipe, Ev.fork,
        Ev.close Fd.pipeWrite, Ev.alarm 1, Ev.read,
        Ev.sf_error "Daemon startup timed out.\n", Ev.kill 42 SIGKILL, Ev.waitpid 42,
        Ev.close Fd.pipeRead, Ev.sf_active "web" 42, Ev.close Fd.pipeRead]) ∧
    (∃ w1, handleStart sampleConfig (startEnvParent [⟨0, false⟩, ⟨0, true⟩]) ["start", "web"]
        (sampleWorld [sampleDaemon "web" DAEMON_STATE_INACTIVE 0]) = Except.ok w1 ∧
      w1.daemons = [sampleDaemon "web" DAEMON_STATE_ACTIVE 42] ∧
      w1.trace = [Ev.mkdir "logs", Ev.sf_start "web", Ev.pipe, Ev.fork,
        Ev.close Fd.pipeWrite, Ev.alarm 1, Ev.read, Ev.read,
        Ev.sf_error "Daemon startup timed out.\n", Ev.kill 42 SIGKILL, Ev.waitpid 42,
        Ev.close Fd.pipeRead, Ev.sf_active "web" 42, Ev.close Fd.pipeRead]) :=
  ⟨⟨_, rfl, by decide, by decide⟩, ⟨_, rfl, by decide, by decide⟩⟩

/-- C3 (the code departs from it): from a registry without any STARTING or
STOPPING record, a `handleStop` whose `waitpid` is interrupted by the shutdown
timeout returns with the record in state STOPPING. -/
theorem stop_timeout_leaves_stopping :
    noTransient (sampleWorld [sampleDaemon "web" DAEMON_STATE_ACTIVE 42]).daemons ∧
    ∃ w1, handleStop sampleConfig stopEnvTimedOut ["stop", "web"]
        (sampleWorld [sampleDaemon "web" DAEMON_STATE_ACTIVE 42]) = Except.ok w1 ∧
      w1.daemons = [sampleDaemon "web" DAEMON_STATE_STOPPING 0] ∧
      w1.trace = [Ev.kill 42 SIGTERM, Ev.sf_stop "web" 42, Ev.alarm 1, Ev.waitpid 42,
        Ev.alarm 0, Ev.kill 42 SIGKILL, Ev.sf_error "Timed out"] ∧
      ¬ noTransient w1.daemons :=
  ⟨by decide, _, rfl, by decide, by decide, by decide⟩

/-! ## Registration and removal -/

/-- C7: in a registry with fewer than `MAX_DAEMONS` records, none of them
named `n`, a `register` command with name `n`, a command and any further
arguments whose two allocations succeed appends exactly one record, named `n`,
INACTIVE, with process id 0; the earlier records are unchanged and in order,
and `findDaemon` then returns the new record for `n`. -/
theorem register_appends_inactive_record (env : RegisterEnv) (w : World)
    (a n command : String) (rest : List String)
    (hroom : w.daemons.length < MAX_DAEMONS)
    (hfresh : ∀ d ∈ w.daemons, d.name ≠ n)
    (hdaemon : env.daemonAlloc = true)
    (hargs : env.argsAlloc = true) :
    ∃ d, (handleRegister env (a :: n :: command :: rest) w).daemons = w.daemons ++ [d] ∧
      d.name = n ∧ d.state = DAEMON_STATE_INACTIVE ∧ d.pid = 0 ∧
      d.command = command ∧ d.args = command :: rest ∧ d.exited = 0 ∧
      findDaemon (handleRegister env (a :: n :: command :: rest) w).daemons n
        = some (w.daemons.length, d) ∧
      (handleRegister env (a :: n :: command :: rest) w).trace
        = w.trace ++ [Ev.sf_register n command] := by
  have hlt : ¬ (w.daemons.length ≥ MAX_DAEMONS) := by omega
  have hreg : handleRegister env (a :: n :: command :: rest) w
      = emit (Ev.sf_register n command)
          { w with daemons := w.daemons ++
              [{ name := n, command := command, args := command :: rest, pid := 0,
                 state := DAEMON_STATE_INACTIVE, exited := 0, exit_status := env.junk }] } := by
    simp only [handleRegister, hlt, if_false, hdaemon, hargs, Bool.true_eq_false,
      addDaemonToList, hroom, if_true]
  refine ⟨{ name := n, command := command, args := command :: rest, pid := 0,
            state := DAEMON_STATE_INACTIVE, exited := 0, exit_status := env.junk },
    ?_, rfl, rfl, rfl, rfl, rfl, rfl, ?_, ?_⟩
  · rw [hreg]; rfl
  · rw [hreg]
    have h := findDaemonFrom_append n
      { name := n, command := command, args := command :: rest, pid := 0,
        state := DAEMON_STATE_INACTIVE, exited := 0, exit_status := env.junk }
      [] rfl w.daemons 0 hfresh
    simpa [findDaemon] using h
  · rw [hreg]; rfl

/-- Instance of C7: `register web serve.sh -v` in a registry that holds `db`. -/
theorem register_appends_inactive_record_witness :
    (sampleWorld [sampleDaemon "db" DAEMON_STATE_ACTIVE 7]).daemons.length < MAX_DAEMONS ∧
    (∀ d ∈ (sampleWorld [sampleDaemon "db" DAEMON_STATE_ACTIVE 7]).daemons, d.name ≠ "web") ∧
    (RegisterEnv.mk true true 5).daemonAlloc = true ∧
    (RegisterEnv.mk true true 5).argsAlloc = true ∧
    ∃ d, (handleRegister (RegisterEnv.mk true true 5) ["register", "web", "serve.sh", "-v"]
        (sampleWorld [sampleDaemon "db" DAEMON_STATE_ACTIVE 7])).daemons
        = (sampleWorld [sampleDaemon "db" DAEMON_STATE_ACTIVE 7]).daemons ++ [d] ∧
      d.name = "web" ∧ d.state = DAEMON_STATE_INACTIVE ∧ d.pid = 0 ∧
      d.command = "serve.sh" ∧ d.args = ["serve.sh", "-v"] ∧ d.exited = 0 ∧
      findDaemon (handleRegister (RegisterEnv.mk true true 5)
          ["register", "web", "serve.sh", "-v"]
          (sampleWorld [sampleDaemon "db" DAEMON_STATE_ACTIVE 7])).daemons "web"
        = some ((sampleWorld [sampleDaemon "db" DAEMON_STATE_ACTIVE 7]).daemons.length, d) ∧
      (handleRegister (RegisterEnv.mk true true 5) ["register", "web", "serve.sh", "-v"]
          (sampleWorld [sampleDaemon "db" DAEMON_STATE_ACTIVE 7])).trace
        = (sampleWorld [sampleDaemon "db" DAEMON_STATE_ACTIVE 7]).trace
            ++ [Ev.sf_register "web" "serve.sh"] :=
  ⟨by decide, by decide, rfl, rfl,
    register_appends_inactive_record (RegisterEnv.mk true true 5)
      (sampleWorld [sampleDaemon "db" DAEMON_STATE_ACTIVE 7]) "register" "web" "serve.sh" ["-v"]
      (by decide) (by decide) rfl rfl⟩

/-- With pairwise distinct names, a record of the registry splits it into a
part before and a part after in which no record has its name. -/
theorem split_of_mem_nodup {ds : List DAEMON} {d : DAEMON}
    (hnodup : (ds.map DAEMON.name).Nodup) (hmem : d ∈ ds) :
    ∃ l1 l2, ds = l1 ++ d :: l2 ∧ (∀ e ∈ l1, e.name ≠ d.name) ∧ ∀ e ∈ l2, e.name ≠ d.name := by
  obtain ⟨l1, l2, hds⟩ := List.append_of_mem hmem
  subst hds
  rw [List.map_append, List.map_cons, List.nodup_append] at hnodup
  obtain ⟨_, h2, h3⟩ := hnodup
  rw [List.nodup_cons] at h2
  refine ⟨l1, l2, rfl, ?_, ?_⟩
  · intro e he heq
    exact h3 (List.mem_map_of_mem DAEMON.name he) (by rw [heq]; exact List.mem_cons_self _ _)
  · intro e he heq
    exact h2.1 (by rw [← heq]; exact List.mem_map_of_mem DAEMON.name he)

/-- C8: in a registry with pairwise distinct names that holds an INACTIVE
record `d` named `n`, `handleUnregister` for `n` removes exactly that record:
the registry `l1 ++ d :: l2` becomes `l1 ++ l2` (one record fewer, the others
unchanged and in the same order), the notification `sf_unregister` is sent,
`findDaemon` no longer finds `n`, and `handleStatus` for `n` reports that no
daemon is registered under that name. -/
theorem unregister_removes_inactive_record (w : World) (a b n : String) (more : List String)
    (d : DAEMON)
    (hnodup : (w.daemons.map DAEMON.name).Nodup)
    (hmem : d ∈ w.daemons)
    (hname : d.name = n)
    (hstate : d.state = DAEMON_STATE_INACTIVE) :
    ∃ l1 l2, w.daemons = l1 ++ d :: l2 ∧
      (handleUnregister [a, n] w).daemons = l1 ++ l2 ∧
      (handleUnregister [a, n] w).daemons.length + 1 = w.daemons.length ∧
      (handleUnregister [a, n] w).trace = w.trace ++ [Ev.sf_unregister n] ∧
      findDaemon (handleUnregister [a, n] w).daemons n = none ∧
      handleStatus (b :: n :: more) (handleUnregister [a, n] w)
        = sf_error "No daemon registered under that name! \n" (handleUnregister [a, n] w) := by
  obtain ⟨l1, l2, hds, h1, h2⟩ := split_of_mem_nodup hnodup hmem
  rw [hname] at h1 h2
  have hfind : findDaemon w.daemons n = some (l1.length, d) := by
    have h := findDaemonFrom_append n d l2 hname l1 0 h1
    rw [hds]
    simpa [findDaemon] using h
  have hun : handleUnregister [a, n] w
      = { emit (Ev.sf_unregister d.name) w with daemons := l1 ++ l2 } := by
    simp only [handleUnregister, hfind, hstate, ne_eq, not_true_eq_false, if_false,
      emit_daemons]
    rw [hds, eraseIdx_split]
  have hnone : findDaemon (l1 ++ l2) n = none := by
    apply findDaemonFrom_none
    intro e he
    rcases List.mem_append.mp he with he | he
    · exact h1 e he
    · exact h2 e he
  refine ⟨l1, l2, hds, ?_, ?_, ?_, ?_, ?_⟩
  · rw [hun]
  · rw [hun, hds]; simp; omega
  · rw [hun, hname]; rfl
  · rw [hun]; exact hnone
  · rw [hun]
    simp only [handleStatus, hnone]

/-- Instance of C8: `unregister web` between the records `db` and `cache`. -/
theorem unregister_removes_inactive_record_witness :
    ((sampleWorld [sampleDaemon "db" DAEMON_STATE_ACTIVE 7,
        sampleDaemon "web" DAEMON_STATE_INACTIVE 0,
        sampleDaemon "cache" DAEMON_STATE_EXITED 0]).daemons.map DAEMON.name).Nodup ∧
    sampleDaemon "web" DAEMON_STATE_INACTIVE 0 ∈
      (sampleWorld [sampleDaemon "db" DAEMON_STATE_ACTIVE 7,
        sampleDaemon "web" DAEMON_STATE_INACTIVE 0,
        sampleDaemon "cache" DAEMON_STATE_EXITED 0]).daemons ∧
    (sampleDaemon "web" DAEMON_STATE_INACTIVE 0).name = "web" ∧
    (sampleDaemon "web" DAEMON_STATE_INACTIVE 0).state = DAEMON_STATE_INACTIVE ∧
    ∃ l1 l2,
      (sampleWorld [sampleDaemon "db" DAEMON_STATE_ACTIVE 7,
        sampleDaemon "web" DAEMON_STATE_INACTIVE 0,
        sampleDaemon "cache" DAEMON_STATE_EXITED 0]).daemons
        = l1 ++ sampleDaemon "web" DAEMON_STATE_INACTIVE 0 :: l2 ∧
      (handleUnregister ["unregister", "web"]
        (sampleWorld [sampleDaemon "db" DAEMON_STATE_ACTIVE 7,
          sampleDaemon "web" DAEMON_STATE_INACTIVE 0,
          sampleDaemon "cache" DAEMON_STATE_EXITED 0])).daemons = l1 ++ l2 ∧
      (handleUnregister ["unregister", "web"]
        (sampleWorld [sampleDaemon "db" DAEMON_STATE_ACTIVE 7,
          sampleDaemon "web" DAEMON_STATE_INACTIVE 0,
          sampleDaemon "cache" DAEMON_STATE_EXITED 0])).daemons.length + 1
        = (sampleWorld [sampleDaemon "db" DAEMON_STATE_ACTIVE 7,
            sampleDaemon "web" DAEMON_STATE_INACTIVE 0,
            sampleDaemon "cache" DAEMON_STATE_EXITED 0]).daemons.length ∧
      (handleUnregister ["unregister", "web"]
        (sampleWorld [sampleDaemon "db" DAEMON_STATE_ACTIVE 7,
          sampleDaemon "web" DAEMON_STATE_INACTIVE 0,
          sampleDaemon "cache" DAEMON_STATE_EXITED 0])).trace
        = (sampleWorld [sampleDaemon "db" DAEMON_STATE_ACTIVE 7,
            sampleDaemon "web" DAEMON_STATE_INACTIVE 0,
            sampleDaemon "cache" DAEMON_STATE_EXITED 0]).trace ++ [Ev.sf_unregister "web"] ∧
      findDaemon (handleUnregister ["unregister", "web"]
        (sampleWorld [sampleDaemon "db" DAEMON_STATE_ACTIVE 7,
          sampleDaemon "web" DAEMON_STATE_INACTIVE 0,
          sampleDaemon "cache" DAEMON_STATE_EXITED 0])).daemons "web" = none ∧
      handleStatus ("status" :: "web" :: [])
          (handleUnregister ["unregister", "web"]
            (sampleWorld [sampleDaemon "db" DAEMON_STATE_ACTIVE 7,
              sampleDaemon "web" DAEMON_STATE_INACTIVE 0,
              sampleDaemon "cache" DAEMON_STATE_EXITED 0]))
        = sf_error "No daemon registered under that name! \n"
            (handleUnregister ["unregister", "web"]
              (sampleWorld [sampleDaemon "db" DAEMON_STATE_ACTIVE 7,
                sampleDaemon "web" DAEMON_STATE_INACTIVE 0,
                sampleDaemon "cache" DAEMON_STATE_EXITED 0])) :=
  ⟨by decide, by decide, rfl, rfl,
    unregister_removes_inactive_record
      (sampleWorld [sampleDaemon "db" DAEMON_STATE_ACTIVE 7,
        sampleDaemon "web" DAEMON_STATE_INACTIVE 0,
        sampleDaemon "cache" DAEMON_STATE_EXITED 0])
      "unregister" "status" "web" [] (sampleDaemon "web" DAEMON_STATE_INACTIVE 0)
      (by decide) (by decide) rfl rfl⟩

/-! ## Log rotation -/

@[simp] theorem unlink_daemons (p : String) (w : World) : (unlink p w).daemons = w.daemons :=
  rfl

@[simp] theorem unlink_timeout (p : String) (w : World) : (unlink p w).timeout = w.timeout :=
  rfl

@[simp] theorem unlink_trace (p : String) (w : World) :
    (unlink p w).trace = w.trace ++ [Ev.unlink p] := rfl

@[simp] theorem rename_daemons (p q : String) (w : World) :
    (rename p q w).daemons = w.daemons := by
  unfold rename
  cases w.files p with
  | none => rfl
  | some c => by_cases h : p = q <;> simp [h]

@[simp] theorem rename_timeout (p q : String) (w : World) :
    (rename p q w).timeout = w.timeout := by
  unfold rename
  cases w.files p with
  | none => rfl
  | some c => by_cases h : p = q <;> simp [h]

@[simp] theorem rename_trace (p q : String) (w : World) :
    (rename p q w).trace = w.trace ++ [Ev.rename p q] := by
  unfold rename
  cases w.files p with
  | none => rfl
  | some c => by_cases h : p = q <;> simp [h]

@[simp] theorem rotateLoop_daemons (cfg : Config) (n : String) :
    ∀ (k : Nat) (w : World), (rotateLoop cfg n k w).daemons = w.daemons
  | 0, _ => rfl
  | k + 1, w => by simp [rotateLoop, rotateLoop_daemons cfg n k]

@[simp] theorem rotateLoop_timeout (cfg : Config) (n : String) :
    ∀ (k : Nat) (w : World), (rotateLoop cfg n k w).timeout = w.timeout
  | 0, _ => rfl
  | k + 1, w => by simp [rotateLoop, rotateLoop_timeout cfg n k]

theorem handleRegister_timeout (env : RegisterEnv) (args : List String) (w : World) :
    (handleRegister env args w).timeout = w.timeout := by
  unfold handleRegister addDaemonToList
  repeat' split
  all_goals rfl

theorem handleUnregister_timeout (args : List String) (w : World) :
    (handleUnregister args w).timeout = w.timeout := by
  unfold handleUnregister
  repeat' split
  all_goals rfl

theorem handleStatus_timeout (args : List String) (w : World) :
    (handleStatus args w).timeout = w.timeout := by
  unfold handleStatus
  repeat' split
  all_goals rfl

theorem statusAllLoop_timeout :
    ∀ (ds : List DAEMON) (w : World), (statusAllLoop ds w).timeout = w.timeout
  | [], _ => rfl
  | d :: ds, w => by simp [statusAllLoop, statusAllLoop_timeout ds]

theorem handleStatusAll_timeout (w : World) : (handleStatusAll w).timeout = w.timeout := by
  unfold handleStatusAll
  split
  · rfl
  · exact statusAllLoop_timeout _ _

/-- With the flag already set the reading loop does not run. -/
theorem readLoop_flag_set (steps : List ReadStep) (size : Int) (w : World)
    (hw : w.timeout = 1) : readLoop steps size w = Except.ok (size, w) := by
  cases steps <;> simp [readLoop, hw]

theorem startChild_timeout (cfg : Config) (env : StartEnv) (i : Nat) (n : String)
    (d : DAEMON) (w w1 : World) (h : startChild cfg env i n d w = Except.ok w1) :
    w1.timeout = w.timeout := by
  unfold startChild at h
  simp only at h
  repeat' split at h
  all_goals first
    | (injection h with h; subst h; rfl)
    | (exact absurd h (by simp))

theorem startParent_flag_set (cfg : Config) (env : StartEnv) (i : Nat) (d : DAEMON)
    (pid : Int) (w : World) (hw : w.timeout = 1) :
    startParent cfg env i d pid w = Except.ok
      (emit (Ev.close Fd.pipeRead) (emit (Ev.sf_active d.name pid)
        (setState i DAEMON_STATE_ACTIVE (emit (Ev.close Fd.pipeRead)
          (setState i DAEMON_STATE_INACTIVE (emit (Ev.waitpid pid)
            (emit (Ev.kill pid SIGKILL) (sf_error "Daemon startup timed out.\n"
              (emit (Ev.alarm cfg.CHILD_TIMEOUT) (emit (Ev.close Fd.pipeWrite)
                (setPid i pid w)))))))))))  := by
  have hflag : (emit (Ev.alarm cfg.CHILD_TIMEOUT) (emit (Ev.close Fd.pipeWrite)
      (setPid i pid w))).timeout = 1 := by simpa using hw
  unfold startParent
  simp only [readLoop_flag_set _ _ _ hflag]
  simp [hw]

theorem handleStart_timeout (cfg : Config) (env : StartEnv) (args : List String)
    (w w1 : World) (hw : w.timeout = 1) (h : handleStart cfg env args w = Except.ok w1) :
    w1.timeout = 1 := by
  unfold handleStart at h
  simp only at h
  split at h
  · split at h
    · injection h with h; subst h; simpa using hw
    · split at h
      · injection h with h; subst h; simpa using hw
      · split at h
        · injection h with h; subst h; simpa using hw
        · split at h
          · injection h with h; subst h; simpa using hw
          · split at h
            · rw [startChild_timeout _ _ _ _ _ _ _ h]; simpa using hw
            · rw [startParent_flag_set _ _ _ _ _ _ (by simpa using hw)] at h
              injection h with h; subst h; simpa using hw
  · injection h with h; subst h; simpa using hw

theorem handleStop_timeout (cfg : Config) (env : StopEnv) (args : List String)
    (w w1 : World) (hw : w.timeout = 1) (h : handleStop cfg env args w = Except.ok w1) :
    w1.timeout = 1 := by
  unfold handleStop at h
  simp only at h
  repeat' split at h
  all_goals first
    | (injection h with h; subst h; simp [stopTimedOut, hw])
    | (exact absurd h (by simp))

theorem handleLogrotate_timeout (cfg : Config) (env : LogrotateEnv) (args : List String)
    (w w1 : World) (hw : w.timeout = 1) (h : handleLogrotate cfg env args w = Except.ok w1) :
    w1.timeout = 1 := by
  unfold handleLogrotate at h
  simp only at h
  split at h
  · split at h
    · injection h with h; subst h; simpa using hw
    · split at h
      · split at h
        · exact absurd h (by simp)
        · rename_i w2 hstop
          have h2 : w2.timeout = 1 := handleStop_timeout _ _ _ _ _ (by simpa using hw) hstop
          exact handleStart_timeout _ _ _ _ _ (by simpa using h2) h
      · injection h with h; subst h; simpa using hw
  · injection h with h; subst h; simpa using hw

theorem runOp_timeout (cfg : Config) (op : Op) (w w1 : World) (hw : w.timeout = 1)
    (h : runOp cfg op w = Except.ok w1) : w1.timeout = 1 := by
  cases op with
  | register env args =>
    injection h with h; subst h; rw [handleRegister_timeout]; exact hw
  | unregister args =>
    injection h with h; subst h; rw [handleUnregister_timeout]; exact hw
  | start env args => exact handleStart_timeout cfg env args w w1 hw h
  | stop env args => exact handleStop_timeout cfg env args w w1 hw h
  | logrotate env args => exact handleLogrotate_timeout cfg env args w w1 hw h
  | status args =>
    injection h with h; subst h; rw [handleStatus_timeout]; exact hw
  | statusAll =>
    injection h with h; subst h; rw [handleStatusAll_timeout]; exact hw
  | sigalrm =>
    injection h with h; subst h; rfl

theorem runOps_timeout (cfg : Config) :
    ∀ (ops : List Op) (w w1 : World), w.timeout = 1 →
      runOps cfg ops w = Except.ok w1 → w1.timeout = 1
  | [], w, w1, hw, h => by
    injection h with h; subst h; exact hw
  | op :: ops, w, w1, hw, h => by
    simp only [runOps] at h
    split at h
    · exact absurd h (by simp)
    · rename_i w2 hop
      exact runOps_timeout cfg ops w2 w1 (runOp_timeout cfg op w w2 hw hop) h

/-- With the flag already set, `handleStop` on an ACTIVE record runs lines 515
to 518 whatever `waitpid` answers. -/
theorem handleStop_flag_set (cfg : Config) (env : StopEnv) (w : World) (a n : String)
    (rest : List String) (i : Nat) (d : DAEMON) (hw : w.timeout = 1)
    (hfind : findDaemon w.daemons n = some (i, d)) (hstate : d.state = DAEMON_STATE_ACTIVE) :
    handleStop cfg env (a :: n :: rest) w = Except.ok (stopTimedOut i d
      (if env.alarmInWait = true then
        handle_alarm (if env.waitRet ≠ -1 then
          setExitStatus i env.wstatus (emit (Ev.waitpid d.pid)
            (emit (Ev.alarm cfg.CHILD_TIMEOUT) (emit (Ev.sf_stop d.name d.pid)
              (emit (Ev.kill d.pid SIGTERM) (setState i DAEMON_STATE_STOPPING w)))))
          else emit (Ev.waitpid d.pid)
            (emit (Ev.alarm cfg.CHILD_TIMEOUT) (emit (Ev.sf_stop d.name d.pid)
              (emit (Ev.kill d.pid SIGTERM) (setState i DAEMON_STATE_STOPPING w)))))
       else (if env.waitRet ≠ -1 then
          setExitStatus i env.wstatus (emit (Ev.waitpid d.pid)
            (emit (Ev.alarm cfg.CHILD_TIMEOUT) (emit (Ev.sf_stop d.name d.pid)
              (emit (Ev.kill d.pid SIGTERM) (setState i DAEMON_STATE_STOPPING w)))))
          else emit (Ev.waitpid d.pid)
            (emit (Ev.alarm cfg.CHILD_TIMEOUT) (emit (Ev.sf_stop d.name d.pid)
              (emit (Ev.kill d.pid SIGTERM) (setState i DAEMON_STATE_STOPPING w))))))) := by
  have h1 : ¬ (d.state = DAEMON_STATE_CRASHED ∨ d.state = DAEMON_STATE_EXITED) := by
    rw [hstate]; decide
  have h2 : ¬ (d.state ≠ DAEMON_STATE_ACTIVE) := by simp [hstate]
  have hone : (1 : Int) ≠ 0 := by decide
  simp only [handleStop, hfind, h1, h2, if_false]
  by_cases hwait : env.waitRet = -1 <;> by_cases halarm : env.alarmInWait = true <;>
    simp [hwait, halarm, hw]

/-- C10: once the timeout flag is 1 it is 1 after every sequence of commands
(and deliveries of `SIGALRM`) that returns; with the flag at 1, a `handleStart`
on an INACTIVE record whose `pipe` and `fork` succeed in the parent issues no
`read` and kills the child, whatever the script of reads, and a `handleStop` on
an ACTIVE record ends on the forced-kill path, whatever `waitpid` answers. -/
theorem timeout_flag_is_sticky (cfg : Config) :
    (∀ (ops : List Op) (w w1 : World), w.timeout = 1 →
      runOps cfg ops w = Except.ok w1 → w1.timeout = 1) ∧
    (∀ (env : StartEnv) (w : World) (a n : String) (rest : List String) (i : Nat)
        (d : DAEMON),
      w.timeout = 1 → findDaemon w.daemons n = some (i, d) →
      d.state = DAEMON_STATE_INACTIVE → 0 ≤ env.pipeRet → 0 < env.forkRet →
      ∃ w1, handleStart cfg env (a :: n :: rest) w = Except.ok w1 ∧
        w1.trace = w.trace ++ [Ev.mkdir cfg.LOGFILE_DIR, Ev.sf_start d.name, Ev.pipe, Ev.fork,
          Ev.close Fd.pipeWrite, Ev.alarm cfg.CHILD_TIMEOUT,
          Ev.sf_error "Daemon startup timed out.\n", Ev.kill env.forkRet SIGKILL,
          Ev.waitpid env.forkRet, Ev.close Fd.pipeRead, Ev.sf_active d.name env.forkRet,
          Ev.close Fd.pipeRead] ∧
        Ev.read ∉ w1.trace.drop w.trace.length ∧
        Ev.kill env.forkRet SIGKILL ∈ w1.trace.drop w.trace.length ∧
        w1.timeout = 1) ∧
    (∀ (env : StopEnv) (w : World) (a n : String) (rest : List String) (i : Nat)
        (d : DAEMON),
      w.timeout = 1 → findDaemon w.daemons n = some (i, d) →
      d.state = DAEMON_STATE_ACTIVE →
      ∃ w1, handleStop cfg env (a :: n :: rest) w = Except.ok w1 ∧
        w1.trace = w.trace ++ [Ev.kill d.pid SIGTERM, Ev.sf_stop d.name d.pid,
          Ev.alarm cfg.CHILD_TIMEOUT, Ev.waitpid d.pid, Ev.alarm 0, Ev.kill d.pid SIGKILL,
          Ev.sf_error "Timed out"] ∧
        w1.timeout = 1) := by
  refine ⟨runOps_timeout cfg, ?_, ?_⟩
  · intro env w a n rest i d hw hfind hstate hpipe hfork
    have hp : ¬ env.pipeRet < 0 := by omega
    have hf1 : ¬ env.forkRet < 0 := by omega
    have hf2 : ¬ env.forkRet = 0 := by omega
    have hrun : handleStart cfg env (a :: n :: rest) w
        = startParent cfg env i d env.forkRet (emit Ev.fork (emit Ev.pipe
            (setState i DAEMON_STATE_STARTING (emit (Ev.sf_start d.name)
              (emit (Ev.mkdir cfg.LOGFILE_DIR) w))))) := by
      simp only [handleStart, hfind, hstate, ne_eq, not_true_eq_false, if_false, hp, hf1, hf2]
    rw [startParent_flag_set _ _ _ _ _ _ (by simpa using hw)] at hrun
    refine ⟨_, hrun, ?_, ?_, ?_, ?_⟩
    · simp
    · simp
    · simp
    · simpa using hw
  · intro env w a n rest i d hw hfind hstate
    refine ⟨_, handleStop_flag_set cfg env w a n rest i d hw hfind hstate, ?_, ?_⟩
    · by_cases hwait : env.waitRet = -1 <;> by_cases halarm : env.alarmInWait = true <;>
        simp [stopTimedOut, hwait, halarm]
    · by_cases hwait : env.waitRet = -1 <;> by_cases halarm : env.alarmInWait = true <;>
        simp [stopTimedOut, hwait, halarm, hw]

/-- Instance of C10: a start then a stop of `web` with the flag already set. -/
theorem timeout_flag_is_sticky_witness :
    ((flaggedWorld [sampleDaemon "web" DAEMON_STATE_INACTIVE 0]).timeout = 1 ∧
      runOps sampleConfig
          [Op.start (startEnvParent [⟨1, false⟩]) ["start", "web"],
           Op.stop (stopEnvReaped (Termination.normal 0)) ["stop", "web"]]
          (flaggedWorld [sampleDaemon "web" DAEMON_STATE_INACTIVE 0])
        = Except.ok stickyRunResult ∧
      stickyRunResult.timeout = 1) ∧
    ((flaggedWorld [sampleDaemon "web" DAEMON_STATE_INACTIVE 0]).timeout = 1 ∧
      findDaemon (flaggedWorld [sampleDaemon "web" DAEMON_STATE_INACTIVE 0]).daemons "web"
        = some (0, sampleDaemon "web" DAEMON_STATE_INACTIVE 0) ∧
      (sampleDaemon "web" DAEMON_STATE_INACTIVE 0).state = DAEMON_STATE_INACTIVE ∧
      0 ≤ (startEnvParent [⟨1, false⟩]).pipeRet ∧
      0 < (startEnvParent [⟨1, false⟩]).forkRet ∧
      ∃ w1, handleStart sampleConfig (startEnvParent [⟨1, false⟩]) ["start", "web"]
          (flaggedWorld [sampleDaemon "web" DAEMON_STATE_INACTIVE 0]) = Except.ok w1 ∧
        w1.trace = (flaggedWorld [sampleDaemon "web" DAEMON_STATE_INACTIVE 0]).trace ++
          [Ev.mkdir sampleConfig.LOGFILE_DIR,
           Ev.sf_start (sampleDaemon "web" DAEMON_STATE_INACTIVE 0).name, Ev.pipe, Ev.fork,
           Ev.close Fd.pipeWrite, Ev.alarm sampleConfig.CHILD_TIMEOUT,
           Ev.sf_error "Daemon startup timed out.\n",
           Ev.kill (startEnvParent [⟨1, false⟩]).forkRet SIGKILL,
           Ev.waitpid (startEnvParent [⟨1, false⟩]).forkRet, Ev.close Fd.pipeRead,
           Ev.sf_active (sampleDaemon "web" DAEMON_STATE_INACTIVE 0).name
             (startEnvParent [⟨1, false⟩]).forkRet,
           Ev.close Fd.pipeRead] ∧
        Ev.read ∉ w1.trace.drop
          (flaggedWorld [sampleDaemon "web" DAEMON_STATE_INACTIVE 0]).trace.length ∧
        Ev.kill (startEnvParent [⟨1, false⟩]).forkRet SIGKILL ∈ w1.trace.drop
          (flaggedWorld [sampleDaemon "web" DAEMON_STATE_INACTIVE 0]).trace.length ∧
        w1.timeout = 1) ∧
    ((flaggedWorld [sampleDaemon "web" DAEMON_STATE_ACTIVE 42]).timeout = 1 ∧
      findDaemon (flaggedWorld [sampleDaemon "web" DAEMON_STATE_ACTIVE 42]).daemons "web"
        = some (0, sampleDaemon "web" DAEMON_STATE_ACTIVE 42) ∧
      (sampleDaemon "web" DAEMON_STATE_ACTIVE 42).state = DAEMON_STATE_ACTIVE ∧
      ∃ w1, handleStop sampleConfig (stopEnvReaped (Termination.normal 0)) ["stop", "web"]
          (flaggedWorld [sampleDaemon "web" DAEMON_STATE_ACTIVE 42]) = Except.ok w1 ∧
        w1.trace = (flaggedWorld [sampleDaemon "web" DAEMON_STATE_ACTIVE 42]).trace ++
          [Ev.kill (sampleDaemon "web" DAEMON_STATE_ACTIVE 42).pid SIGTERM,
           Ev.sf_stop (sampleDaemon "web" DAEMON_STATE_ACTIVE 42).name
             (sampleDaemon "web" DAEMON_STATE_ACTIVE 42).pid,
           Ev.alarm sampleConfig.CHILD_TIMEOUT,
           Ev.waitpid (sampleDaemon "web" DAEMON_STATE_ACTIVE 42).pid, Ev.alarm 0,
           Ev.kill (sampleDaemon "web" DAEMON_STATE_ACTIVE 42).pid SIGKILL,
           Ev.sf_error "Timed out"] ∧
        w1.timeout = 1) :=
  ⟨⟨rfl, rfl,
      (timeout_flag_is_sticky sampleConfig).1 _ _ _ rfl
        (rfl : runOps sampleConfig
          [Op.start (startEnvParent [⟨1, false⟩]) ["start", "web"],
           Op.stop (stopEnvReaped (Termination.normal 0)) ["stop", "web"]]
          (flaggedWorld [sampleDaemon "web" DAEMON_STATE_INACTIVE 0])
        = Except.ok stickyRunResult)⟩,
    ⟨rfl, by decide, rfl, by decide, by decide,
      (timeout_flag_is_sticky sampleConfig).2.1 (startEnvParent [⟨1, false⟩])
        (flaggedWorld [sampleDaemon "web" DAEMON_STATE_INACTIVE 0]) "start" "web" [] 0
        (sampleDaemon "web" DAEMON_STATE_INACTIVE 0) rfl (by decide) rfl (by decide)
        (by decide)⟩,
    ⟨rfl, by decide, rfl,
      (timeout_flag_is_sticky sampleConfig).2.2 (stopEnvReaped (Termination.normal 0))
        (flaggedWorld [sampleDaemon "web" DAEMON_STATE_ACTIVE 42]) "stop" "web" [] 0
        (sampleDaemon "web" DAEMON_STATE_ACTIVE 42) rfl (by decide) rfl⟩⟩

end Legion
